import Mathlib

/-!
# Verification of the swaptfs-backend booking core

A shallow embedding of the flight seat-inventory and booking lifecycle of the
`swaptfs-backend` repository (Python/FastAPI + SQLite), together with proofs
and refutations of the specification claims about it.

Conventions of the embedding:
* Times (departure timestamps, `utc_now()`) are modelled as `Int` seconds since
  the epoch; datetime arithmetic such as `dep + timedelta(minutes=45)` becomes
  `dep + 45 * 60`, and `(departure - now).total_seconds() / 3600 > W` is the
  exact rational comparison `departure - now > W * 3600` for integral `W`.
* SQLite tables become Lean lists kept in insertion order; `get_one_query`
  with a `WHERE col = ?` filter becomes `List.find?`, `UPDATE ... WHERE`
  becomes a `List.map` guarded on the key, `DELETE ... WHERE` a `List.filter`.
  The `bookings` table has `confirmationNumber TEXT PRIMARY KEY`
  (config.DB_SCHEMA), so an `INSERT` of a duplicate confirmation number fails
  with an integrity error; `Bookings.add` returns `Except` accordingly.
* Random draws from `secrets.choice` are passed in explicitly as oracle
  arguments (a function giving the drawn alphabet indices, or a list of drawn
  candidate codes acting as the fuel of a retry loop).
* Python truthiness tests on optional strings (`if not x`, `x or d`) are
  modelled on `Option String` with `none` and `""` both falsy.
-/

/-- One row of the `flights` table (the columns the booking core reads:
`src/core/models.py` `Flight`, restricted to the fields the verified routes
touch).  `departure` holds the parsed scheduled departure timestamp. -/
structure Flight where
  id : String
  origin : String
  dest : String
  aircraft : Option String
  departure : Int
  seats : Int
  booked : Int
  deptGate : Option String
  deriving Repr, DecidableEq

/-- One row of the `bookings` table (`src/core/models.py` `Booking`).
`boardingPosition` stores the full token such as `"A12"`; `boardingGroup`
its leading letter; `checkedInAt` the check-in timestamp. -/
structure Booking where
  userId : String
  username : String
  flightId : String
  confirmationNumber : String
  bookedAt : Int
  boardingGroup : Option String
  boardingPosition : Option String
  checkedInAt : Option Int
  deriving Repr, DecidableEq

/-- The slice of a `users` row consulted by check-in:
`SELECT hasEarlyBird FROM users WHERE id = ?`.  The column is nullable. -/
structure UserRow where
  id : String
  hasEarlyBird : Option Int
  deriving Repr, DecidableEq

/-- The deterministic content drawn onto a boarding-pass artifact by
`generate_boarding_pass_image` (src/core/flights/boarding_pass.py).  PIL's
PNG encoding is a fixed deterministic function of the drawn content, so two
artifacts have identical bytes iff their `PassContent` agree; the airport
reference lookup is a static table, so storing the origin/destination codes
determines the city/state text it produces. -/
structure PassContent where
  passenger : String
  confirmation : String
  flightId : String
  gate : String
  departure : Int
  checkedInAt : Option Int
  origin : String
  dest : String
  aircraft : String
  boardingPosition : String
  barcode : List Bool
  deriving Repr, DecidableEq

/-- The persistent state the booking core reads and writes: the three SQLite
tables plus the on-disk artifact cache.  A cache entry keyed
`(flightId, confirmationNumber)` models the file
`images/cache/printed/<flightId>/<confirmationNumber>.png`; the directory
`images/cache/printed/<flightId>` exists exactly when some entry for that
flight does. -/
structure Store where
  flights : List Flight
  bookings : List Booking
  users : List UserRow
  cache : List ((String × String) × PassContent)
  deriving Repr, DecidableEq

/-- Python truthiness of an optional string: `None` and `""` are falsy. -/
def strFalsy (s : Option String) : Bool :=
  s.getD "" = ""

/-- Python `x or d` on an optional string field. -/
def strOrElse (s : Option String) (d : String) : String :=
  if strFalsy s then d else s.getD ""

namespace Flights

/-- `Flights.get_by_id` (src/core/crud.py line 42):
`SELECT * FROM flights WHERE id = ?`. -/
def get_by_id (flight_id : String) (st : Store) : Option Flight :=
  st.flights.find? (fun f => f.id = flight_id)

/-- `Flights.change_bookings` (src/core/crud.py line 76):
`UPDATE flights SET booked = booked ± ? WHERE id = ?`, with `+` when the
`operation` string equals `"add"` and `-` otherwise. -/
def change_bookings (flight_id : String) (count : Int) (operation : String)
    (st : Store) : Store :=
  { st with flights := st.flights.map (fun f =>
      if f.id = flight_id then
        { f with booked := if operation = "add" then f.booked + count else f.booked - count }
      else f) }

/-- The seat-count repair of `Flights.verify_seats` (src/core/crud.py
lines 97–106) on a single `(seats, booked)` row: when
`booked < 0 or seats < 0 or booked > seats` the row is rewritten to
`(max(seats, booked, 0), 0)`; the `Bool` is the returned `corrected` flag. -/
def verify_seats_row (seats booked : Int) : Int × Int × Bool :=
  if booked < 0 ∨ seats < 0 ∨ booked > seats then
    (max seats (max booked 0), 0, true)
  else
    (seats, booked, false)

/-- `Flights.verify_seats` (src/core/crud.py lines 91–106): read the row,
raise `ValueError` when the flight is absent, otherwise apply
`verify_seats_row` and persist the corrected values. -/
def verify_seats (flight_id : String) (st : Store) : Except String Store :=
  match get_by_id flight_id st with
  | none => .error ("Flight " ++ flight_id ++ " not found")
  | some f =>
    let r := verify_seats_row f.seats f.booked
    if r.2.2 then
      .ok { st with flights := st.flights.map (fun g =>
              if g.id = flight_id then { g with seats := r.1, booked := r.2.1 } else g) }
    else
      .ok st

/-- `Flights.delete` (src/core/crud.py line 111):
`DELETE FROM flights WHERE id = ?`. -/
def delete (flight_id : String) (st : Store) : Store :=
  { st with flights := st.flights.filter (fun f => ¬ f.id = flight_id) }

end Flights

namespace Bookings

/-- `Bookings.get_by_confirmation` (src/core/crud.py line 176):
`SELECT * FROM bookings WHERE confirmationNumber = ?`. -/
def get_by_confirmation (confirmation : String) (st : Store) : Option Booking :=
  st.bookings.find? (fun b => b.confirmationNumber = confirmation)

/-- `Bookings.add` (src/core/crud.py line 182): `INSERT INTO bookings ...`.
`confirmationNumber` is the table's `PRIMARY KEY` (config.DB_SCHEMA), so the
insert raises an integrity error when a row with the same confirmation number
already exists, leaving the table unchanged. -/
def add (b : Booking) (st : Store) : Except String Store :=
  if st.bookings.any (fun x => x.confirmationNumber = b.confirmationNumber) then
    .error "UNIQUE constraint failed: bookings.confirmationNumber"
  else
    .ok { st with bookings := st.bookings ++ [b] }

/-- `Bookings.delete` (src/core/crud.py line 192):
`DELETE FROM bookings WHERE confirmationNumber = ?`. -/
def delete (confirmation : String) (st : Store) : Store :=
  { st with bookings := st.bookings.filter (fun b => ¬ b.confirmationNumber = confirmation) }

/-- `Bookings.delete_by_flight_id` (src/core/crud.py line 196):
`DELETE FROM bookings WHERE flightId = ?`. -/
def delete_by_flight_id (flight : String) (st : Store) : Store :=
  { st with bookings := st.bookings.filter (fun b => ¬ b.flightId = flight) }

end Bookings

/-- `UPDATE bookings SET ... WHERE confirmationNumber = ?` as used by the
check-in routes: apply `f` to every booking carrying the confirmation. -/
def updateBookings (confirmation : String) (f : Booking → Booking) (st : Store) : Store :=
  { st with bookings := st.bookings.map (fun b =>
      if b.confirmationNumber = confirmation then f b else b) }

/-! ## Boarding-position allocation (src/core/flights/booking_utils.py) -/

/-- `re.search(r"\d+", s)` followed by `int(match.group())`: the first maximal
run of decimal digits of `s`, if any. -/
def extractNat (s : String) : Option Nat :=
  let ds := (s.data.dropWhile (fun c => ¬ c.isDigit)).takeWhile (fun c => c.isDigit)
  if ds.isEmpty then none
  else some (ds.foldl (fun n c => n * 10 + (c.toNat - 48)) 0)

/-- The `(group, position)` pairs scanned by `assign_boarding_position`, in
its scan order: groups `["A", "B", "C"]` outer, positions `1..60` inner. -/
def boardingSlots : List (String × Nat) :=
  (["A", "B", "C"].map (fun g => (List.range 60).map (fun i => (g, i + 1)))).flatten

/-- The taken-set construction of `assign_boarding_position`
(src/core/flights/booking_utils.py lines 34–40): bookings of the flight whose
`boardingGroup` is truthy and whose `boardingPosition` contains a digit run. -/
def positionsTaken (flight_id : String) (st : Store) : List (String × Nat) :=
  (st.bookings.filter (fun b => b.flightId = flight_id)).filterMap (fun b =>
    match b.boardingGroup, b.boardingPosition.bind extractNat with
    | some g, some p => if g = "" then none else some (g, p)
    | _, _ => none)

/-- `assign_boarding_position` (src/core/flights/booking_utils.py
lines 21–53): return the first slot of `boardingSlots` not in the taken set,
formatted `f"{group}{pos}"`, and `"C60"` when every slot is taken. -/
def assign_boarding_position (flight_id : String) (st : Store) : String :=
  let taken := positionsTaken flight_id st
  match boardingSlots.find? (fun gp => ¬ taken.contains gp) with
  | some gp => gp.1 ++ toString gp.2
  | none => "C60"

/-! ## Confirmation-code generation -/

/-- The code alphabet `"ABCDEFGHIJKLMNOPQRSTUVWXYZ0123456789"` shared by both
generators (src/routes/booking.py line 30, src/core/flights/booking_utils.py
line 10). -/
def confAlphabet : List Char :=
  "ABCDEFGHIJKLMNOPQRSTUVWXYZ0123456789".data

/-- `_generate_confirmation` (src/routes/booking.py lines 21–30): six
`secrets.choice` draws from the alphabet, joined.  The random outcome is the
oracle `draw` giving the index drawn at each of the six places.  No store is
consulted: the function performs no collision check. -/
def generateConfirmation (draw : Fin 6 → Fin 36) : String :=
  String.mk (List.ofFn (fun i => confAlphabet.getD (draw i).1 'A'))

/-- `generate_confirmation_number` (src/core/flights/booking_utils.py
lines 8–17), its unbounded `while True` loop fuelled by the finite list of
candidate codes the random source would produce.  Mirroring the source
exactly: a drawn code that collides with an existing booking makes the
`while True` loop draw the next candidate, and a drawn code that is *free*
hits `return generate_confirmation_number(length)`, which starts over on the
remaining candidates instead of returning the free code.  Both branches
therefore consume the draw and continue; the function can only be exhausted,
never produce a value. -/
def generate_confirmation_number (draws : List String) (st : Store) : Option String :=
  match draws with
  | [] => none
  | code :: rest =>
    if st.bookings.any (fun b => b.confirmationNumber = code) then
      generate_confirmation_number rest st
    else
      generate_confirmation_number rest st

/-! ## Boarding-pass rendering (src/core/flights/boarding_pass.py) -/

/-- The rolling hash of `draw_barcode.hash_code` (lines 71–76):
`h = ((h << 5) - h + ord(ch)) & 0xFFFFFFFF` per character, i.e.
`h := (31 * h + ord ch) mod 2^32`; the final `abs` is the identity on the
masked value. -/
def hash_code (s : String) : Nat :=
  s.data.foldl (fun h c => (31 * h + c.toNat) % 4294967296) 0

/-- One step of the linear-congruential generator of `draw_barcode.random_bit`
(line 82): `seed = (seed * 1664525 + 1013904223) % 4294967296`. -/
def lcg_next (seed : Nat) : Nat :=
  (seed * 1664525 + 1013904223) % 4294967296

/-- The first `n` bits of the LCG stream: each step advances the seed first
and then reads `seed % 2`, as `random_bit` does. -/
def lcg_bits (seed : Nat) : Nat → List Bool
  | 0 => []
  | n + 1 => (lcg_next seed % 2 == 1) :: lcg_bits (lcg_next seed) n

/-- The number of fixed-width vertical slices of the pseudo-barcode: the
barcode area is `width - stub_pad - 20 = 1000 - 770 - 20 = 210` pixels wide
and `range(0, 210, 4)` visits 53 slice positions (lines 156, 190, 203–208). -/
def barcodeSliceCount : Nat := 53

/-- `draw_barcode` (lines 70–88) as the pure bar pattern it draws: slice `i`
carries a bar iff the `i`-th bit of the LCG stream seeded by
`hash_code confirmation` is set. -/
def draw_barcode (confirmation : String) : List Bool :=
  lcg_bits (hash_code confirmation) barcodeSliceCount

/-- The deterministic content drawn by the non-cached path of
`generate_boarding_pass_image` (lines 109–208) from the booking and flight
rows: the field fallbacks `x or default` of lines 113–121 and the barcode of
the displayed confirmation string.  `confirmation_number` is the function's
argument, used in the `or` fallback of line 113. -/
def renderContent (confirmation_number : String) (booking : Booking)
    (flight : Flight) : PassContent :=
  let confirmation :=
    if booking.confirmationNumber = "" then "#" ++ confirmation_number
    else booking.confirmationNumber
  { passenger := booking.username
    confirmation := confirmation
    flightId := booking.flightId
    gate := strOrElse flight.deptGate "TBD"
    departure := flight.departure
    checkedInAt := booking.checkedInAt
    origin := flight.origin
    dest := flight.dest
    aircraft := strOrElse flight.aircraft "Unknown"
    boardingPosition := strOrElse booking.boardingPosition "N/A"
    barcode := draw_barcode confirmation }

/-- Lookup in the artifact cache at key `(flightId, confirmationNumber)`. -/
def cacheGet (key : String × String)
    (cache : List ((String × String) × PassContent)) : Option PassContent :=
  (cache.find? (fun e => e.1 = key)).map (fun e => e.2)

/-- Failures of `generate_boarding_pass_image` when a referenced record is
missing (lines 101–107; the source raises there). -/
inductive RenderError
  | bookingNotFound
  | flightNotFound
  deriving Repr, DecidableEq

/-- `generate_boarding_pass_image` (src/core/flights/boarding_pass.py
lines 90–226).  Control flow of the source: look up the booking and the
flight (raising when missing); if the cache file at
`(flight.id, confirmation_number)` exists, read and return its bytes
verbatim — in both modes; otherwise draw the content, persist it to the
cache, and return it.  Filesystem reads and writes are modelled as
succeeding, so the `return None` branch of the cached path (reached only
when reading an *existing* cache file raises with `cache_only=True`,
lines 144–147) is never taken, and the cache-write `try` of lines 214–223
always commits.  Note that `cache_only` plays no role on a cache miss: the
source falls through to full generation and caching. -/
def generate_boarding_pass_image (confirmation_number : String)
    (cache_only : Bool) (st : Store) :
    Except RenderError (Option PassContent) × Store :=
  match Bookings.get_by_confirmation confirmation_number st with
  | none => (.error .bookingNotFound, st)
  | some booking =>
    match Flights.get_by_id booking.flightId st with
    | none => (.error .flightNotFound, st)
    | some flight =>
      match cacheGet (flight.id, confirmation_number) st.cache with
      | some data =>
        if cache_only then (.ok (some data), st) else (.ok (some data), st)
      | none =>
        let content := renderContent confirmation_number booking flight
        (.ok (some content),
         { st with cache := st.cache ++ [((flight.id, confirmation_number), content)] })

/-! ## Booking routes (src/routes/booking.py) -/

/-- The failure responses of `create_booking` (HTTP status and detail):
400 "Flight ID is required", 400 "Flight already departed",
404 "Flight not found", 400 "No seats available",
400 "User already has a booking for this flight", 500 "Database error". -/
inductive BookingError
  | missingFlightId
  | flightDeparted
  | flightNotFound
  | noSeats
  | duplicateBooking
  | databaseError
  deriving Repr, DecidableEq

/-- `create_booking` (src/routes/booking.py lines 33–130).  `dep?` is the
*request body's* `departure` field after `parse_datetime` (line 69; `none`
when absent or unparseable — the stored flight departure is not consulted by
this check).  The departed test of line 70 rejects only when
`dep + 45 minutes < now`.  Inside the `try` of lines 106–130 every raised
exception — including the defensive `HTTPException` on `seats <= 0` and an
`INSERT` integrity error on a colliding confirmation code — is caught by
`except Exception` and resurfaced as 500 "Database error", with whatever
writes already committed left in place.  The SRS notification failure is
swallowed by the inner `try` of lines 120–124 and does not affect the
result. -/
def create_booking (now : Int) (user_id username : String)
    (flightId? : Option String) (dep? : Option Int) (draw : Fin 6 → Fin 36)
    (st : Store) : Except BookingError Booking × Store :=
  if strFalsy flightId? then (.error .missingFlightId, st) else
  let flight_id := flightId?.getD ""
  if (match dep? with
      | some dep => decide (dep + 45 * 60 < now)
      | none => false) then
    (.error .flightDeparted, st)
  else
    match Flights.get_by_id flight_id st with
    | none => (.error .flightNotFound, st)
    | some flight =>
      if flight.booked ≥ flight.seats then (.error .noSeats, st) else
      if st.bookings.any (fun b => b.userId = user_id ∧ b.flightId = flight_id) then
        (.error .duplicateBooking, st)
      else
        let confirmation := generateConfirmation draw
        let booking_data : Booking :=
          { userId := user_id, username := username, flightId := flight_id
            confirmationNumber := confirmation, bookedAt := now
            boardingGroup := none, boardingPosition := none, checkedInAt := none }
        if flight.seats ≤ 0 then (.error .databaseError, st) else
        match Bookings.add booking_data st with
        | .error _ => (.error .databaseError, st)
        | .ok st1 =>
          let st2 := Flights.change_bookings flight.id 1 "add" st1
          match Flights.verify_seats flight.id st2 with
          | .error _ => (.error .databaseError, st2)
          | .ok st3 => (.ok booking_data, st3)

/-- The failure responses of `cancel_booking`: 400 "Booking ID required",
403 "Not authorized or booking not found", 400 "Flight already departed",
500 "Database error". -/
inductive CancelError
  | missingId
  | notAuthorized
  | flightDeparted
  | databaseError
  deriving Repr, DecidableEq

/-- The two success responses of `cancel_booking`. -/
inductive CancelOutcome
  | canceledFlightMissing
  | canceled
  deriving Repr, DecidableEq

/-- `cancel_booking` (src/routes/booking.py lines 312–386).  `srsOk` is the
outcome of the awaited `srs_client.send_cancel` call.  The cached
boarding-pass file removal of lines 360–372 has its failures swallowed; on
the success path it removes the cache entry at
`(flight.id, booking.confirmationNumber)` when present.  The `try` of
lines 374–386 contains the booking delete, the counter decrement, the seat
verification *and* the awaited SRS call; an exception from any of them —
notably a failed SRS call — is caught by `except Exception` and resurfaced
as 500 "Database error" after the earlier writes have committed. -/
def cancel_booking (now : Int) (user_id : String) (confirmation? : Option String)
    (srsOk : Bool) (st : Store) : Except CancelError CancelOutcome × Store :=
  if strFalsy confirmation? then (.error .missingId, st) else
  let code := confirmation?.getD ""
  match Bookings.get_by_confirmation code st with
  | none => (.error .notAuthorized, st)
  | some booking =>
    if ¬ booking.userId = user_id then (.error .notAuthorized, st) else
    match Flights.get_by_id booking.flightId st with
    | none => (.ok .canceledFlightMissing, Bookings.delete code st)
    | some flight =>
      if flight.departure + 45 * 60 < now then (.error .flightDeparted, st) else
      let cache1 := st.cache.filter (fun e => ¬ e.1 = (flight.id, booking.confirmationNumber))
      let st1 := { st with cache := cache1 }
      let st2 := Bookings.delete code st1
      let st3 := Flights.change_bookings flight.id 1 "sub" st2
      match Flights.verify_seats flight.id st3 with
      | .error _ => (.error .databaseError, st3)
      | .ok st4 =>
        if srsOk then (.ok .canceled, st4) else (.error .databaseError, st4)

/-! ## Check-in routes (src/routes/checkin.py) -/

/-- The failure responses of the check-in routes: 400 "Confirmation number is
required", 404 "Confirmation number not found", 500 "Flight data not found",
404 "User not found", the 400 too-early rejection whose detail string reports
the applicable window length ("Check-in is only allowed within
\x7bcheckin_window_hours\x7d hours before departure"), and
500 "Failed to generate boarding pass image". -/
inductive CheckinError
  | missingConfirmation
  | bookingNotFound
  | flightDataMissing
  | userNotFound
  | tooEarly (windowHours : Int)
  | renderFailed
  deriving Repr, DecidableEq

/-- `start_checkin` (src/routes/checkin.py lines 23–150).  `devmode` is the
`DEV_MODE` environment flag of line 20; `requester_id`/`username?` come from
the session; `srsOk` is the outcome of the awaited `srs_client.send_checkin`
call, whose failure is swallowed by the inner `try` of lines 138–145 and
therefore never influences result or state (the parameter is kept to state
that independence).  The window gate of lines 81–96 rejects with
`tooEarly window` when `DEV_MODE` is off and
`departure - now > window * 3600`, before any write; the boarding-position
`UPDATE` of lines 98–109 runs only when the stored position is falsy; the
`checkedInAt` `UPDATE` of line 130 runs unconditionally with the fresh
`utc_now()`. -/
def start_checkin (devmode : Bool) (now : Int) (requester_id : String)
    (username? : Option String) (confirmation? : Option String) (srsOk : Bool)
    (st : Store) : Except CheckinError PassContent × Store :=
  let _ := srsOk
  if strFalsy confirmation? then (.error .missingConfirmation, st) else
  let cn := confirmation?.getD ""
  match Bookings.get_by_confirmation cn st with
  | none => (.error .bookingNotFound, st)
  | some booking =>
    match Flights.get_by_id booking.flightId st with
    | none => (.error .flightDataMissing, st)
    | some flight =>
      match st.users.find? (fun u => u.id = requester_id) with
      | none => (.error .userNotFound, st)
      | some user =>
        let is_early_bird := user.hasEarlyBird = some 1
        let window : Int := if is_early_bird then 36 else 24
        if ¬ devmode ∧ flight.departure - now > window * 3600 then
          (.error (.tooEarly window), st)
        else
          let _ := username?.getD "Guest"
          let st1 :=
            if strFalsy booking.boardingPosition then
              let position := assign_boarding_position flight.id st
              let group := position.take 1
              updateBookings cn (fun b =>
                { b with boardingGroup := some group, boardingPosition := some position }) st
            else st
          let st2 := updateBookings cn (fun b => { b with checkedInAt := some now }) st1
          match generate_boarding_pass_image cn false st2 with
          | (.ok (some buffer), st3) => (.ok buffer, st3)
          | (.ok none, st3) => (.error .renderFailed, st3)
          | (.error _, st3) => (.error .renderFailed, st3)

/-- `staff_checkin` (src/routes/checkin.py lines 202–330), the staff-initiated
twin of `start_checkin`: identical control flow and writes, except that the
Early-Bird flag is read for the request body's `targetUser` and the response
carries the boarding group and position instead of the image bytes.  `srsOk`
is again swallowed by the inner `try` of lines 318–325. -/
def staff_checkin (devmode : Bool) (now : Int) (target_user : String)
    (username? : Option String) (confirmation? : Option String) (srsOk : Bool)
    (st : Store) : Except CheckinError (Option String × Option String) × Store :=
  let _ := srsOk
  if strFalsy confirmation? then (.error .missingConfirmation, st) else
  let cn := confirmation?.getD ""
  match Bookings.get_by_confirmation cn st with
  | none => (.error .bookingNotFound, st)
  | some booking =>
    match Flights.get_by_id booking.flightId st with
    | none => (.error .flightDataMissing, st)
    | some flight =>
      match st.users.find? (fun u => u.id = target_user) with
      | none => (.error .userNotFound, st)
      | some user =>
        let is_early_bird := user.hasEarlyBird = some 1
        let window : Int := if is_early_bird then 36 else 24
        if ¬ devmode ∧ flight.departure - now > window * 3600 then
          (.error (.tooEarly window), st)
        else
          let _ := username?.getD "Guest"
          let updated :=
            if strFalsy booking.boardingPosition then
              let position := assign_boarding_position flight.id st
              (some (position.take 1), some position)
            else (booking.boardingGroup, booking.boardingPosition)
          let st1 :=
            if strFalsy booking.boardingPosition then
              let position := assign_boarding_position flight.id st
              let group := position.take 1
              updateBookings cn (fun b =>
                { b with boardingGroup := some group, boardingPosition := some position }) st
            else st
          let st2 := updateBookings cn (fun b => { b with checkedInAt := some now }) st1
          match generate_boarding_pass_image cn false st2 with
          | (.ok (some _), st3) => (.ok updated, st3)
          | (.ok none, st3) => (.error .renderFailed, st3)
          | (.error _, st3) => (.error .renderFailed, st3)

/-- `get_printed_boarding_pass` (src/routes/checkin.py lines 152–200): the
route that serves a previously generated pass, calling
`generate_boarding_pass_image(confirmationCode, cache_only=True)` after the
ownership and checked-in guards, and mapping a `None` buffer to
404 "Boarding pass not found". -/
inductive PrintedError
  | missingCode
  | notFound
  deriving Repr, DecidableEq

/-- The printed-pass route.  `booking.userId != session.user_id` and a `None`
`checkedInAt` are both rejected with 404 before the renderer is consulted.
(The source calls `crud.Bookings.get_by_confirmation` and dereferences the
result without a `None` check, so a missing booking raises; that raise is
outside the `try` and surfaces as an internal error, modelled here as
`notFound` like the other failures of this route.) -/
def get_printed_boarding_pass (user_id : String) (confirmationCode? : Option String)
    (st : Store) : Except PrintedError (Option PassContent) × Store :=
  if strFalsy confirmationCode? then (.error .missingCode, st) else
  let code := confirmationCode?.getD ""
  match Bookings.get_by_confirmation code st with
  | none => (.error .notFound, st)
  | some booking =>
    if ¬ booking.userId = user_id then (.error .notFound, st) else
    if booking.checkedInAt = none then (.error .notFound, st) else
    match generate_boarding_pass_image code true st with
    | (.ok (some buffer), st1) => (.ok (some buffer), st1)
    | (.ok none, st1) => (.error .notFound, st1)
    | (.error _, st1) => (.error .notFound, st1)

/-! ## Flight deletion (src/routes/flights.py, src/main.py) -/

/-- The directory `images/cache/printed/<flightId>` as observable through the
model: it exists whenever some artifact for the flight is cached. -/
def cacheDirExists (flight_id : String)
    (cache : List ((String × String) × PassContent)) : Bool :=
  cache.any (fun e => e.1.1 = flight_id)

/-- Python's `os.remove` applied to the per-flight cache *directory* path
`images/cache/printed/<flightId>` (src/routes/flights.py line 315).
`os.remove` unlinks regular files only; applied to a directory it raises
`IsADirectoryError` (POSIX `EISDIR`) and removes nothing, and applied to a
missing path it raises `FileNotFoundError`.  It therefore never returns a
changed cache. -/
def osRemoveCacheDir (flight_id : String)
    (cache : List ((String × String) × PassContent)) :
    Except String (List ((String × String) × PassContent)) :=
  if cacheDirExists flight_id cache then
    .error "IsADirectoryError"
  else
    .error "FileNotFoundError"

/-- The failure responses of `delete_flight`: 404 "Flight not found" and
500 "Database error". -/
inductive FlightDeleteError
  | flightNotFound
  | databaseError
  deriving Repr, DecidableEq

/-- `delete_flight` (src/routes/flights.py lines 246–327).  Per-booking
`send_cancel` failures are caught inside the loop of lines 300–304 and do
not affect the flow.  The cache cleanup of lines 309–318 runs
`os.remove(cache_path)` on the per-flight *directory* when it exists; the
bare `except` swallows the resulting error, so the cache is left as it was.
Then all bookings of the flight and the flight row are deleted.  No seat
release is performed. -/
def delete_flight (flight_id : String) (st : Store) :
    Except FlightDeleteError String × Store :=
  match Flights.get_by_id flight_id st with
  | none => (.error .flightNotFound, st)
  | some flight =>
    let bookings := st.bookings.filter (fun b => b.flightId = flight_id)
    if bookings.isEmpty then
      (.ok "deleted with no bookings", Flights.delete flight_id st)
    else
      let st1 :=
        if cacheDirExists flight.id st.cache then
          match osRemoveCacheDir flight.id st.cache with
          | .ok c => { st with cache := c }
          | .error _ => st
        else st
      let st2 := Bookings.delete_by_flight_id flight_id st1
      let st3 := Flights.delete flight_id st2
      (.ok "canceled", st3)

/-- `cleanup_past_flights` (src/main.py lines 84–101): delete the bookings
and flight rows of every flight whose departure is more than two hours in
the past.  The artifact cache is not touched. -/
def cleanup_past_flights (now : Int) (st : Store) : Store :=
  let past_ids := (st.flights.filter (fun f => f.departure < now - 2 * 3600)).map (fun f => f.id)
  if past_ids.isEmpty then st
  else
    { st with
      bookings := st.bookings.filter (fun b => ¬ past_ids.contains b.flightId)
      flights := st.flights.filter (fun f => ¬ past_ids.contains f.id) }

/-! ## Helper lemmas -/

/-- A keyed `UPDATE flights ... WHERE id = ?` commutes with the keyed
`SELECT` of `Flights.get_by_id`: looking up in the updated table finds the
updated row, provided the update preserves the id. -/
theorem find?_flights_update (flight_id : String) (u : Flight → Flight)
    (hu : ∀ g, (u g).id = g.id) (l : List Flight) :
    (l.map (fun g => if g.id = flight_id then u g else g)).find?
        (fun f => f.id = flight_id)
      = (l.find? (fun f => f.id = flight_id)).map u := by
  induction l with
  | nil => rfl
  | cons a l ih =>
    by_cases h : a.id = flight_id
    · simp [List.find?_cons, h, hu a]
    · simp [List.find?_cons, h, ih]

/-- A keyed `UPDATE bookings ... WHERE confirmationNumber = ?` commutes with
the keyed `SELECT` of `Bookings.get_by_confirmation`, provided the update
preserves the confirmation number. -/
theorem find?_bookings_update (cn : String) (u : Booking → Booking)
    (hu : ∀ b, (u b).confirmationNumber = b.confirmationNumber) (l : List Booking) :
    (l.map (fun b => if b.confirmationNumber = cn then u b else b)).find?
        (fun b => b.confirmationNumber = cn)
      = (l.find? (fun b => b.confirmationNumber = cn)).map u := by
  induction l with
  | nil => rfl
  | cons a l ih =>
    by_cases h : a.confirmationNumber = cn
    · simp [List.find?_cons, h, hu a]
    · simp [List.find?_cons, h, ih]

/-- The corrected row written by `verify_seats_row` always satisfies
`0 ≤ booked ≤ seats`. -/
theorem verify_seats_row_invariant (seats booked : Int) :
    0 ≤ (Flights.verify_seats_row seats booked).2.1 ∧
      (Flights.verify_seats_row seats booked).2.1 ≤ (Flights.verify_seats_row seats booked).1 := by
  unfold Flights.verify_seats_row
  by_cases h : booked < 0 ∨ seats < 0 ∨ booked > seats
  · simp only [h, if_pos]
    exact ⟨le_refl 0, le_trans (le_max_right booked 0) (le_max_right seats _)⟩
  · simp only [h, if_neg, not_false_iff]
    push_neg at h
    exact ⟨h.1, h.2.2⟩

/-- After a successful `verify_seats` call, the flight row it examined
satisfies `0 ≤ booked ≤ seats`. -/
theorem verify_seats_post_invariant (flight_id : String) (st st' : Store) (f : Flight)
    (h : Flights.verify_seats flight_id st = .ok st')
    (hget : Flights.get_by_id flight_id st' = some f) :
    0 ≤ f.booked ∧ f.booked ≤ f.seats := by
  unfold Flights.verify_seats at h
  rcases hfind : Flights.get_by_id flight_id st with _ | f0
  · rw [hfind] at h; exact absurd h (by simp)
  · rw [hfind] at h
    by_cases hc : f0.booked < 0 ∨ f0.seats < 0 ∨ f0.booked > f0.seats
    · simp only [Flights.verify_seats_row, hc, if_pos] at h
      have hst' : _ = st' := Except.ok.inj h
      subst hst'
      unfold Flights.get_by_id at hget
      rw [find?_flights_update flight_id
            (fun g => { g with seats := max f0.seats (max f0.booked 0), booked := 0 })
            (fun g => rfl)] at hget
      rw [show (List.find? (fun f => f.id = flight_id) st.flights)
            = Flights.get_by_id flight_id st from rfl, hfind] at hget
      simp only [Option.map_some'] at hget
      have hf := Option.some.inj hget
      rw [← hf]
      exact ⟨le_refl 0, le_trans (le_max_right f0.booked 0) (le_max_right f0.seats _)⟩
    · simp only [Flights.verify_seats_row, hc, if_neg, not_false_iff] at h
      have hst' : st = st' := Except.ok.inj h
      subst hst'
      rw [hfind] at hget
      have hff : f0 = f := by injection hget
      subst hff
      push_neg at hc
      exact ⟨hc.1, hc.2.2⟩

/-- C2: for every flight, `0 ≤ booked ≤ seats` holds after every Seat Ledger
operation (modelled as the `change_bookings`-then-`verify_seats` sequence that
both booking routes execute) and after every `verify` call, even when the
pre-state violated it: `verify` reads `(seats, booked)` and, if
`booked < 0 ∨ seats < 0 ∨ booked > seats`, rewrites the row to
`seats = max(seats, booked, 0)` and `booked = 0`, so its post-state always
satisfies the invariant. -/
theorem C2_seat_invariant_after_verify :
    (∀ seats booked : Int, (booked < 0 ∨ seats < 0 ∨ booked > seats) →
      Flights.verify_seats_row seats booked = (max seats (max booked 0), 0, true)) ∧
    (∀ seats booked : Int,
      0 ≤ (Flights.verify_seats_row seats booked).2.1 ∧
        (Flights.verify_seats_row seats booked).2.1
          ≤ (Flights.verify_seats_row seats booked).1) ∧
    (∀ (flight_id : String) (st st' : Store) (f : Flight),
      Flights.verify_seats flight_id st = .ok st' →
      Flights.get_by_id flight_id st' = some f →
      0 ≤ f.booked ∧ f.booked ≤ f.seats) ∧
    (∀ (flight_id op : String) (count : Int) (st st' : Store) (f : Flight),
      Flights.verify_seats flight_id
          (Flights.change_bookings flight_id count op st) = .ok st' →
      Flights.get_by_id flight_id st' = some f →
      0 ≤ f.booked ∧ f.booked ≤ f.seats) := by
  refine ⟨?_, verify_seats_row_invariant, verify_seats_post_invariant, ?_⟩
  · intro seats booked h
    simp [Flights.verify_seats_row, h]
  · intro flight_id op count st st' f h hget
    exact verify_seats_post_invariant flight_id _ st' f h hget

/-- Witness for C2 at a concrete corrupted row (seats 3, booked 5): the
repaired row satisfies the invariant. -/
theorem C2_seat_invariant_witness :
    0 ≤ (Flight.mk "F1" "KMCI" "KDAL" none 0 5 0 none).booked ∧
      (Flight.mk "F1" "KMCI" "KDAL" none 0 5 0 none).booked
        ≤ (Flight.mk "F1" "KMCI" "KDAL" none 0 5 0 none).seats :=
  C2_seat_invariant_after_verify.2.2.1 "F1"
    ⟨[Flight.mk "F1" "KMCI" "KDAL" none 0 3 5 none], [], [], []⟩
    ⟨[Flight.mk "F1" "KMCI" "KDAL" none 0 5 0 none], [], [], []⟩
    (Flight.mk "F1" "KMCI" "KDAL" none 0 5 0 none)
    rfl rfl

/-- A booking pinning slot `gp` on flight "FL1", stored the way the check-in
routes persist an assignment (`boardingGroup` the letter, `boardingPosition`
the full token). -/
def takenBooking (gp : String × Nat) : Booking :=
  { userId := "u", username := "pax", flightId := "FL1"
    confirmationNumber := "K" ++ gp.1 ++ toString gp.2, bookedAt := 0
    boardingGroup := some gp.1, boardingPosition := some (gp.1 ++ toString gp.2)
    checkedInAt := none }

/-- Flight "FL1" with A1..A60 and B1..B60 all taken. -/
def abFullStore : Store := ⟨[], (boardingSlots.take 120).map takenBooking, [], []⟩

/-- Flight "FL1" with every slot of all three groups taken. -/
def abcFullStore : Store := ⟨[], boardingSlots.map takenBooking, [], []⟩

/-- C4: `assign` returns the first `(group, position)` pair — scanning groups
in the fixed order A, B, C and positions 1..60 ascending within each group —
that is not carried by any existing booking of the flight; with A1..A60 and
B1..B60 all taken it returns "C1", and with every pair of all three groups
taken it returns "C60" rather than failing. -/
theorem C4_assign_first_free :
    (∀ (flight_id : String) (st : Store) (i : Nat) (h : i < boardingSlots.length),
      boardingSlots.get ⟨i, h⟩ ∉ positionsTaken flight_id st →
      (∀ j (hj : j < i),
          boardingSlots.get ⟨j, lt_trans hj h⟩ ∈ positionsTaken flight_id st) →
      assign_boarding_position flight_id st
        = (boardingSlots.get ⟨i, h⟩).1 ++ toString (boardingSlots.get ⟨i, h⟩).2) ∧
    assign_boarding_position "FL1" (Store.mk [] [] [] []) = "A1" ∧
    assign_boarding_position "FL1" abFullStore = "C1" ∧
    assign_boarding_position "FL1" abcFullStore = "C60" := by
  refine ⟨?_, by decide, by decide, by decide⟩
  intro flight_id st i h hfree htaken
  simp only [assign_boarding_position]
  have hfind : boardingSlots.find?
      (fun gp => ¬ (positionsTaken flight_id st).contains gp)
        = some (boardingSlots.get ⟨i, h⟩) := by
    rw [List.find?_eq_some_iff_getElem]
    refine ⟨by simpa using hfree, i, h, by simp, ?_⟩
    intro j hj
    have := htaken j hj
    simp only [List.get_eq_getElem] at this
    simpa using this
  rw [hfind]

set_option maxRecDepth 4000 in
/-- Witness for C4: on a flight with no bookings the first scanned slot, A1,
is free and `assign` returns it. -/
theorem C4_assign_witness :
    assign_boarding_position "FL2" (Store.mk [] [] [] [])
      = (boardingSlots.get ⟨0, by decide⟩).1
          ++ toString (boardingSlots.get ⟨0, by decide⟩).2 :=
  C4_assign_first_free.1 "FL2" ⟨[], [], [], []⟩ 0 (by decide) (by decide)
    (fun j hj => absurd hj (Nat.not_lt_zero j))

/-- The tail of `create_booking` past the two request-validation guards can
produce every outcome except `flightDeparted`: the departed rejection happens
only in the guard on the request body's departure. -/
theorem create_booking_not_departed (now : Int) (user_id username flight_id : String)
    (dep? : Option Int) (draw : Fin 6 → Fin 36) (st : Store)
    (hfid : ¬ flight_id = "")
    (hdep : (match dep? with
             | some dep => decide (dep + 45 * 60 < now)
             | none => false) = false) :
    ¬ (create_booking now user_id username (some flight_id) dep? draw st).1
        = .error .flightDeparted := by
  have hfalsy : strFalsy (some flight_id) = false := by simp [strFalsy, hfid]
  unfold create_booking
  rw [hfalsy, hdep]
  simp only [Bool.false_eq_true, if_false, Option.getD_some]
  rcases hf : Flights.get_by_id flight_id st with _ | flight
  · simp
  · dsimp only
    by_cases h1 : flight.booked ≥ flight.seats
    · rw [if_pos h1]; simp
    · rw [if_neg h1]
      by_cases h2 : (st.bookings.any
          (fun b => b.userId = user_id ∧ b.flightId = flight_id)) = true
      · rw [if_pos h2]; simp
      · rw [if_neg h2]
        by_cases h3 : flight.seats ≤ 0
        · rw [if_pos h3]; simp
        · rw [if_neg h3]
          rcases hadd : Bookings.add
              { userId := user_id, username := username, flightId := flight_id
                confirmationNumber := generateConfirmation draw, bookedAt := now
                boardingGroup := none, boardingPosition := none,
                checkedInAt := none } st with e | st1
          · simp
          · rcases hv : Flights.verify_seats flight.id
                (Flights.change_bookings flight.id 1 "add" st1) with e | st3 <;>
              simp [hv]

/-- C3 counterexample: with the flight departing exactly at the current time
— so the current time is within 45 minutes of the scheduled departure — the
booking request *succeeds*; and with the stored flight departure far in the
past but no departure field in the request body it also succeeds.  `create`
therefore does not fail with FlightDeparted in either situation the claim
requires it to. -/
theorem C3_counterexample :
    ((create_booking 1000 "u2" "alice" (some "FL1") (some 1000) (fun _ => 0)
        ⟨[Flight.mk "FL1" "KMCI" "KDAL" (some "B737") 1000 3 0 (some "1")],
          [], [], []⟩).1
      = .ok (Booking.mk "u2" "alice" "FL1" "AAAAAA" 1000 none none none)) ∧
    ((create_booking 0 "u2" "alice" (some "FL1") none (fun _ => 0)
        ⟨[Flight.mk "FL1" "KMCI" "KDAL" (some "B737") (-900000) 3 0 (some "1")],
          [], [], []⟩).1
      = .ok (Booking.mk "u2" "alice" "FL1" "AAAAAA" 0 none none none)) :=
  ⟨rfl, rfl⟩

/-- C3 (amended): booking creation fails with FlightDeparted exactly when the
request body supplies a departure timestamp lying more than 45 minutes in the
past (the stored flight departure is not consulted by this check); in that
case the store is unchanged — no booking record is inserted and the flight's
booked count is untouched. -/
theorem C3_amended_departed_iff (now : Int) (user_id username flight_id : String)
    (dep? : Option Int) (draw : Fin 6 → Fin 36) (st : Store)
    (hfid : ¬ flight_id = "") :
    ((create_booking now user_id username (some flight_id) dep? draw st).1
        = .error .flightDeparted
      ↔ ∃ dep, dep? = some dep ∧ dep + 45 * 60 < now) ∧
    ((create_booking now user_id username (some flight_id) dep? draw st).1
        = .error .flightDeparted →
      (create_booking now user_id username (some flight_id) dep? draw st).2 = st) := by
  by_cases hcond : (match dep? with
      | some dep => decide (dep + 45 * 60 < now)
      | none => false) = true
  · have hfalsy : strFalsy (some flight_id) = false := by simp [strFalsy, hfid]
    have hres : create_booking now user_id username (some flight_id) dep? draw st
        = (.error .flightDeparted, st) := by
      unfold create_booking
      rw [hfalsy, hcond]
      simp
    refine ⟨⟨fun _ => ?_, fun _ => by rw [hres]⟩, fun _ => by rw [hres]⟩
    rcases dep? with _ | dep
    · exact absurd hcond (by simp)
    · exact ⟨dep, rfl, of_decide_eq_true hcond⟩
  · have hne := create_booking_not_departed now user_id username flight_id dep? draw st
      hfid (by simpa using hcond)
    refine ⟨⟨fun h => absurd h hne, ?_⟩, fun h => absurd h hne⟩
    rintro ⟨dep, hdep, hlt⟩
    subst hdep
    exact absurd (decide_eq_true hlt) hcond

/-- Witness for C3 (amended): a request carrying a departure 10000 seconds
before a current time larger by more than 45 minutes is rejected as
departed. -/
theorem C3_amended_witness :
    (create_booking 10000 "u9" "dana" (some "FL1") (some 0) (fun _ => 0)
        ⟨[], [], [], []⟩).1 = .error .flightDeparted :=
  ((C3_amended_departed_iff 10000 "u9" "dana" "FL1" (some 0) (fun _ => 0)
      ⟨[], [], [], []⟩ (by decide)).1).mpr ⟨0, rfl, by decide⟩

/-- A store holding one booking with confirmation code "AAAAAA" on flight
"FL1" (seats 5, booked 1). -/
def stC1 : Store :=
  ⟨[Flight.mk "FL1" "KMCI" "KDAL" (some "B737") 100000 5 1 (some "1")],
   [Booking.mk "u1" "zoe" "FL1" "AAAAAA" 0 none none none], [], []⟩

/-- C1: the confirmation-code generator of the booking route performs no
collision check at all — when the six draws reproduce the code of an
existing booking, the route's INSERT violates the primary key and the whole
request fails with 500 "Database error" instead of retrying with a fresh
draw; and the would-be retry helper `generate_confirmation_number` returns
its own recursive call where it should return the free code, so no run of
it, on any store and any sequence of draws, ever terminates with a value. -/
theorem C1_generator_never_retries :
    (∀ (draws : List String) (st : Store),
      generate_confirmation_number draws st = none) ∧
    generateConfirmation (fun _ => 0) = "AAAAAA" ∧
    (Bookings.get_by_confirmation "AAAAAA" stC1).isSome = true ∧
    create_booking 0 "u2" "bob" (some "FL1") none (fun _ => 0) stC1
      = (.error .databaseError, stC1) := by
  refine ⟨?_, rfl, rfl, rfl⟩
  intro draws st
  induction draws with
  | nil => rfl
  | cons code rest ih =>
    unfold generate_confirmation_number
    by_cases h : (st.bookings.any (fun b => b.confirmationNumber = code)) = true
    · rw [if_pos h]; exact ih
    · rw [if_neg h]; exact ih

/-! ## Shared lemmas about check-in and rendering -/

/-- Updating bookings leaves the flights table alone, so flight lookups are
unchanged. -/
theorem get_by_id_updateBookings (flight_id cn : String) (g : Booking → Booking)
    (st : Store) :
    Flights.get_by_id flight_id (updateBookings cn g st)
      = Flights.get_by_id flight_id st := rfl

/-- Looking up a confirmation in an updated bookings table finds the updated
row, provided the update preserves the confirmation number. -/
theorem get_by_confirmation_updateBookings (cn : String) (g : Booking → Booking)
    (st : Store) (b : Booking)
    (hg : ∀ x, (g x).confirmationNumber = x.confirmationNumber)
    (hb : Bookings.get_by_confirmation cn st = some b) :
    Bookings.get_by_confirmation cn (updateBookings cn g st) = some (g b) := by
  have h := find?_bookings_update cn g hg st.bookings
  unfold Bookings.get_by_confirmation at hb ⊢
  unfold updateBookings
  dsimp only
  rw [h, hb]
  rfl

/-- When its booking and flight rows exist, `generate_boarding_pass_image`
returns an artifact (cached or freshly rendered) — never a missing-record
error and never the `None` sentinel. -/
theorem generate_ok_of_found (cn : String) (co : Bool) (st : Store)
    (b : Booking) (f : Flight)
    (hb : Bookings.get_by_confirmation cn st = some b)
    (hf : Flights.get_by_id b.flightId st = some f) :
    ∃ c st', generate_boarding_pass_image cn co st = (.ok (some c), st') := by
  unfold generate_boarding_pass_image
  rw [hb]
  dsimp only
  rw [hf]
  dsimp only
  rcases hc : cacheGet (f.id, cn) st.cache with _ | data
  · exact ⟨_, _, rfl⟩
  · rcases co <;> exact ⟨data, st, rfl⟩

/-- A store with a non-Early-Bird user "u1" and their booking "CONF11" on a
flight departing 100 hours after time 0. -/
def stC5 : Store :=
  ⟨[Flight.mk "FL5" "KMCI" "KDAL" (some "B737") 360000 5 1 (some "2")],
   [Booking.mk "u1" "al" "FL5" "CONF11" 0 none none none],
   [UserRow.mk "u1" (some 0)], []⟩

/-- C5 counterexample: a non-Early-Bird user attempting check-in 100 hours
before departure is rejected as too early, but the rejection reports the
window length (24 hours) — not the 76 hours remaining until eligibility
begins. -/
theorem C5_counterexample :
    (start_checkin false 0 "u1" (some "al") (some "CONF11") true stC5).1
        = .error (.tooEarly 24) ∧
    (360000 - 0 - 24 * 3600) / 3600 = (76 : Int) ∧
    (24 : Int) ≠ 76 :=
  ⟨rfl, by decide, by decide⟩

/-- C5 (amended): with the booking, its flight and the requesting user all
present, check-in fails with the too-early rejection — whose detail reports
the applicable window length `w` (36 hours with the Early-Bird flag, else
24), not the time remaining until eligibility — exactly when the
development-mode flag is off and the flight departs more than `w` hours
after the current time; the rejection leaves the store unchanged, and a
request at or inside the window (or with the development-mode flag on)
proceeds to a rendered pass. -/
theorem C5_amended_window_gate (devmode : Bool) (now w : Int) (uid : String)
    (uname? : Option String) (cn : String) (srsOk : Bool) (st : Store)
    (booking : Booking) (flight : Flight) (user : UserRow)
    (hcn : ¬ cn = "")
    (hb : Bookings.get_by_confirmation cn st = some booking)
    (hf : Flights.get_by_id booking.flightId st = some flight)
    (hu : st.users.find? (fun u => u.id = uid) = some user)
    (hw : w = if user.hasEarlyBird = some 1 then 36 else 24) :
    ((start_checkin devmode now uid uname? (some cn) srsOk st).1
        = .error (.tooEarly w)
      ↔ devmode = false ∧ flight.departure - now > w * 3600) ∧
    ((start_checkin devmode now uid uname? (some cn) srsOk st).1
        = .error (.tooEarly w) →
      (start_checkin devmode now uid uname? (some cn) srsOk st).2 = st) ∧
    (devmode = false → flight.departure - now ≤ w * 3600 →
      ∃ c, (start_checkin devmode now uid uname? (some cn) srsOk st).1 = .ok c) ∧
    (devmode = true →
      ∃ c, (start_checkin devmode now uid uname? (some cn) srsOk st).1 = .ok c) := by
  subst hw
  have hfalsy : strFalsy (some cn) = false := by simp [strFalsy, hcn]
  unfold start_checkin
  rw [hfalsy]
  simp only [Bool.false_eq_true, if_false, Option.getD_some]
  rw [hb]
  dsimp only
  rw [hf]
  dsimp only
  rw [hu]
  dsimp only
  by_cases hgate : ¬ devmode = true ∧
      flight.departure - now > (if user.hasEarlyBird = some 1 then (36:Int) else 24) * 3600
  · rw [if_pos hgate]
    refine ⟨⟨fun _ => ⟨by simpa using hgate.1, hgate.2⟩, fun _ => rfl⟩,
      fun _ => rfl, ?_, ?_⟩
    · intro _ hle
      exact absurd hgate.2 (not_lt.mpr hle)
    · intro hdev
      exact absurd hdev (by simpa using hgate.1)
  · rw [if_neg hgate]
    have hok : ∃ c st3,
        (let st1 :=
          if strFalsy booking.boardingPosition then
            updateBookings cn (fun b =>
              { b with
                boardingGroup := some ((assign_boarding_position flight.id st).take 1)
                boardingPosition := some (assign_boarding_position flight.id st) }) st
          else st
        generate_boarding_pass_image cn false
          (updateBookings cn (fun b => { b with checkedInAt := some now }) st1))
          = (.ok (some c), st3) := by
      by_cases hpos : strFalsy booking.boardingPosition = true
      · rw [if_pos hpos]
        exact generate_ok_of_found _ _ _ _ flight
          (get_by_confirmation_updateBookings _ _ _ _ (fun x => rfl)
            (get_by_confirmation_updateBookings _ _ _ _ (fun x => rfl) hb)) hf
      · rw [if_neg hpos]
        exact generate_ok_of_found _ _ _ _ flight
          (get_by_confirmation_updateBookings _ _ _ _ (fun x => rfl) hb) hf
    obtain ⟨c, st3, hgen⟩ := hok
    dsimp only at hgen
    rw [hgen]
    dsimp only
    refine ⟨⟨fun h => absurd h (by simp), fun hrhs => ?_⟩, fun h => absurd h (by simp),
      fun _ _ => ⟨c, rfl⟩, fun _ => ⟨c, rfl⟩⟩
    exact absurd ⟨by simp [hrhs.1], hrhs.2⟩ hgate

/-- Witness for C5 (amended): the gate fires at the concrete store with a
non-Early-Bird user 100 hours from departure, reporting the 24-hour
window. -/
theorem C5_amended_witness :
    (start_checkin false 0 "u1" (some "al") (some "CONF11") false stC5).1
      = .error (.tooEarly 24) :=
  ((C5_amended_window_gate false 0 24 "u1" (some "al") "CONF11" false stC5
      (Booking.mk "u1" "al" "FL5" "CONF11" 0 none none none)
      (Flight.mk "FL5" "KMCI" "KDAL" (some "B737") 360000 5 1 (some "2"))
      (UserRow.mk "u1" (some 0))
      (by decide) rfl rfl rfl (by decide)).1).mpr ⟨rfl, by decide⟩

/-- The renderer changes at most the cache: the bookings, flights and users
tables pass through untouched, and the cache is unchanged or gains exactly
one entry. -/
theorem generate_state_frame (cn : String) (co : Bool) (st : Store) :
    (generate_boarding_pass_image cn co st).2.bookings = st.bookings ∧
    (generate_boarding_pass_image cn co st).2.flights = st.flights ∧
    (generate_boarding_pass_image cn co st).2.users = st.users ∧
    ((generate_boarding_pass_image cn co st).2.cache = st.cache ∨
      ∃ e, (generate_boarding_pass_image cn co st).2.cache = st.cache ++ [e]) := by
  unfold generate_boarding_pass_image
  rcases hb : Bookings.get_by_confirmation cn st with _ | b
  · exact ⟨rfl, rfl, rfl, .inl rfl⟩
  · dsimp only
    rcases hf : Flights.get_by_id b.flightId st with _ | f
    · exact ⟨rfl, rfl, rfl, .inl rfl⟩
    · dsimp only
      rcases hc : cacheGet (f.id, cn) st.cache with _ | data
      · dsimp only
        exact ⟨rfl, rfl, rfl, .inr ⟨_, rfl⟩⟩
      · rcases co <;> exact ⟨rfl, rfl, rfl, .inl rfl⟩

/-- Frame of a successful `start_checkin` on a booking that already carries
a boarding position: only `checkedInAt` moves on the booking table. -/
theorem start_checkin_frame (devmode : Bool) (now : Int) (uid : String)
    (uname? : Option String) (cn : String) (srsOk : Bool) (st : Store)
    (booking : Booking) (content : PassContent) (st' : Store)
    (hb : Bookings.get_by_confirmation cn st = some booking)
    (hpos : ¬ strFalsy booking.boardingPosition = true)
    (h : start_checkin devmode now uid uname? (some cn) srsOk st = (.ok content, st')) :
    st'.flights = st.flights ∧ st'.users = st.users ∧
    st'.bookings = st.bookings.map (fun b =>
      if b.confirmationNumber = cn then { b with checkedInAt := some now } else b) ∧
    Bookings.get_by_confirmation cn st'
      = some { booking with checkedInAt := some now } := by
  unfold start_checkin at h
  by_cases hcn : strFalsy (some cn) = true
  · rw [if_pos hcn] at h; exact absurd h (by simp)
  · rw [if_neg hcn] at h
    simp only [Option.getD_some] at h
    rw [hb] at h
    dsimp only at h
    rcases hf : Flights.get_by_id booking.flightId st with _ | flight
    · rw [hf] at h; exact absurd h (by simp)
    · rw [hf] at h; dsimp only at h
      rcases hu : st.users.find? (fun u => u.id = uid) with _ | user
      · rw [hu] at h; exact absurd h (by simp)
      · rw [hu] at h; dsimp only at h
        by_cases hgate : ¬ devmode = true ∧ flight.departure - now
            > (if user.hasEarlyBird = some 1 then (36:Int) else 24) * 3600
        · rw [if_pos hgate] at h; exact absurd h (by simp)
        · rw [if_neg hgate] at h
          rw [if_neg hpos] at h
          obtain ⟨c, st3, hgen⟩ := generate_ok_of_found cn false
            (updateBookings cn (fun b => { b with checkedInAt := some now }) st)
            _ flight (get_by_confirmation_updateBookings _ _ _ _ (fun x => rfl) hb) hf
          rw [hgen] at h
          dsimp only at h
          injection h with h1 h2
          subst h2
          have hframe := generate_state_frame cn false
            (updateBookings cn (fun b => { b with checkedInAt := some now }) st)
          rw [hgen] at hframe
          refine ⟨hframe.2.1, hframe.2.2.1, hframe.1, ?_⟩
          show st3.bookings.find? (fun b => b.confirmationNumber = cn) = _
          rw [hframe.1]
          exact get_by_confirmation_updateBookings cn
            (fun b => { b with checkedInAt := some now }) st booking (fun x => rfl) hb

/-- Frame of a successful `staff_checkin` on a booking that already carries a
boarding position: only `checkedInAt` moves, and the response repeats the
stored group and position. -/
theorem staff_checkin_frame (devmode : Bool) (now : Int) (target : String)
    (uname? : Option String) (cn : String) (srsOk : Bool) (st : Store)
    (booking : Booking) (content : Option String × Option String) (st' : Store)
    (hb : Bookings.get_by_confirmation cn st = some booking)
    (hpos : ¬ strFalsy booking.boardingPosition = true)
    (h : staff_checkin devmode now target uname? (some cn) srsOk st = (.ok content, st')) :
    st'.flights = st.flights ∧ st'.users = st.users ∧
    st'.bookings = st.bookings.map (fun b =>
      if b.confirmationNumber = cn then { b with checkedInAt := some now } else b) ∧
    Bookings.get_by_confirmation cn st'
      = some { booking with checkedInAt := some now } ∧
    content = (booking.boardingGroup, booking.boardingPosition) := by
  unfold staff_checkin at h
  by_cases hcn : strFalsy (some cn) = true
  · rw [if_pos hcn] at h; exact absurd h (by simp)
  · rw [if_neg hcn] at h
    simp only [Option.getD_some] at h
    rw [hb] at h
    dsimp only at h
    rcases hf : Flights.get_by_id booking.flightId st with _ | flight
    · rw [hf] at h; exact absurd h (by simp)
    · rw [hf] at h; dsimp only at h
      rcases hu : st.users.find? (fun u => u.id = target) with _ | user
      · rw [hu] at h; exact absurd h (by simp)
      · rw [hu] at h; dsimp only at h
        by_cases hgate : ¬ devmode = true ∧ flight.departure - now
            > (if user.hasEarlyBird = some 1 then (36:Int) else 24) * 3600
        · rw [if_pos hgate] at h; exact absurd h (by simp)
        · rw [if_neg hgate] at h
          rw [if_neg hpos, if_neg hpos] at h
          obtain ⟨c, st3, hgen⟩ := generate_ok_of_found cn false
            (updateBookings cn (fun b => { b with checkedInAt := some now }) st)
            _ flight (get_by_confirmation_updateBookings _ _ _ _ (fun x => rfl) hb) hf
          rw [hgen] at h
          dsimp only at h
          injection h with h1 h2
          subst h2
          have hframe := generate_state_frame cn false
            (updateBookings cn (fun b => { b with checkedInAt := some now }) st)
          rw [hgen] at hframe
          refine ⟨hframe.2.1, hframe.2.2.1, hframe.1, ?_, (Except.ok.inj h1).symm⟩
          show st3.bookings.find? (fun b => b.confirmationNumber = cn) = _
          rw [hframe.1]
          exact get_by_confirmation_updateBookings cn
            (fun b => { b with checkedInAt := some now }) st booking (fun x => rfl) hb

/-- C10: on every successful check-in — self-service or staff-initiated —
of a booking that already carries a boarding position, the booking's
`checkedInAt` field is overwritten with the current time (even when it was
already set: the check-in timestamp is not stable under repeated check-in),
while the stored `boardingGroup` and `boardingPosition` are reused unchanged
and no other booking field, no other booking row, and no flights or users
row is modified. -/
theorem C10_checkin_overwrites_timestamp :
    (∀ (devmode : Bool) (now : Int) (uid : String) (uname? : Option String)
        (cn : String) (srsOk : Bool) (st : Store) (booking : Booking)
        (content : PassContent) (st' : Store),
      Bookings.get_by_confirmation cn st = some booking →
      ¬ strFalsy booking.boardingPosition = true →
      start_checkin devmode now uid uname? (some cn) srsOk st = (.ok content, st') →
      st'.flights = st.flights ∧ st'.users = st.users ∧
      st'.bookings = st.bookings.map (fun b =>
        if b.confirmationNumber = cn then { b with checkedInAt := some now } else b) ∧
      Bookings.get_by_confirmation cn st'
        = some { booking with checkedInAt := some now }) ∧
    (∀ (devmode : Bool) (now : Int) (target : String) (uname? : Option String)
        (cn : String) (srsOk : Bool) (st : Store) (booking : Booking)
        (content : Option String × Option String) (st' : Store),
      Bookings.get_by_confirmation cn st = some booking →
      ¬ strFalsy booking.boardingPosition = true →
      staff_checkin devmode now target uname? (some cn) srsOk st = (.ok content, st') →
      st'.flights = st.flights ∧ st'.users = st.users ∧
      st'.bookings = st.bookings.map (fun b =>
        if b.confirmationNumber = cn then { b with checkedInAt := some now } else b) ∧
      Bookings.get_by_confirmation cn st'
        = some { booking with checkedInAt := some now } ∧
      content = (booking.boardingGroup, booking.boardingPosition)) :=
  ⟨fun devmode now uid uname? cn srsOk st booking content st' hb hpos h =>
      start_checkin_frame devmode now uid uname? cn srsOk st booking content st' hb hpos h,
   fun devmode now target uname? cn srsOk st booking content st' hb hpos h =>
      staff_checkin_frame devmode now target uname? cn srsOk st booking content st' hb hpos h⟩

/-- A store whose booking "CONFW" is already positioned at A1 and already
checked in at time 111, on a flight departing one hour after time 0. -/
def stW : Store :=
  ⟨[Flight.mk "FLW" "KMCI" "KDAL" (some "B737") 3600 5 1 (some "3")],
   [Booking.mk "u1" "al" "FLW" "CONFW" 0 (some "A") (some "A1") (some 111)],
   [UserRow.mk "u1" (some 0)], []⟩

/-- Witness for C10 at `stW`: a repeat check-in at time 0 overwrites the
existing check-in timestamp 111 with 0 and keeps position A1. -/
theorem C10_checkin_witness :
    Bookings.get_by_confirmation "CONFW"
        (start_checkin false 0 "u1" (some "al") (some "CONFW") true stW).2
      = some (Booking.mk "u1" "al" "FLW" "CONFW" 0 (some "A") (some "A1") (some 0)) :=
  (C10_checkin_overwrites_timestamp.1 false 0 "u1" (some "al") "CONFW" true stW
    (Booking.mk "u1" "al" "FLW" "CONFW" 0 (some "A") (some "A1") (some 111))
    (renderContent "CONFW"
      (Booking.mk "u1" "al" "FLW" "CONFW" 0 (some "A") (some "A1") (some 0))
      (Flight.mk "FLW" "KMCI" "KDAL" (some "B737") 3600 5 1 (some "3")))
    (start_checkin false 0 "u1" (some "al") (some "CONFW") true stW).2
    rfl (by decide) rfl).2.2.2

/-- The bit list produced by the LCG has one bit per requested slice. -/
theorem lcg_bits_length (n : Nat) : ∀ seed : Nat, (lcg_bits seed n).length = n := by
  induction n with
  | zero => intro seed; rfl
  | succ n ih => intro seed; simp [lcg_bits, ih]

/-- The `i`-th barcode bit is the parity of the `(i+1)`-st LCG iterate of the
seed: the generator advances the seed before reading each bit. -/
theorem lcg_bits_getD (n : Nat) : ∀ (seed i : Nat), i < n →
    (lcg_bits seed n).getD i false = (lcg_next^[i + 1] seed % 2 == 1) := by
  induction n with
  | zero => intro seed i h; exact absurd h (Nat.not_lt_zero i)
  | succ n ih =>
    intro seed i h
    cases i with
    | zero =>
      rw [lcg_bits, List.getD_cons_zero, Function.iterate_one]
    | succ i =>
      have hi : i < n := Nat.lt_of_succ_lt_succ h
      rw [lcg_bits, List.getD_cons_succ, ih (lcg_next seed) i hi,
        ← Function.iterate_succ_apply lcg_next (i + 1) seed]

/-- Appending a fresh entry for key `k` to a cache that misses `k` makes the
lookup return exactly that entry. -/
theorem cacheGet_append_self (k : String × String) (v : PassContent)
    (c : List ((String × String) × PassContent)) (h : cacheGet k c = none) :
    cacheGet k (c ++ [(k, v)]) = some v := by
  unfold cacheGet at h ⊢
  simp only [Option.map_eq_none'] at h
  rw [List.find?_append, h]
  simp

/-- C8: rendering is deterministic.  The pseudo-barcode is a pure function
of the displayed confirmation string — one bit per fixed-width slice, each
bit the parity of the next state of the linear-congruential generator seeded
by the 32-bit rolling hash of the string — and rendering the same
(flight, confirmation) pair twice in a row without any other mutation of the
booking, flight or cache yields identical artifact bytes on both calls. -/
theorem C8_render_deterministic :
    (∀ s : String, (draw_barcode s).length = barcodeSliceCount) ∧
    (∀ (s : String) (i : Nat), i < barcodeSliceCount →
      (draw_barcode s).getD i false = (lcg_next^[i + 1] (hash_code s) % 2 == 1)) ∧
    (∀ (n1 n2 : String) (b1 b2 : Booking) (f1 f2 : Flight),
      (renderContent n1 b1 f1).confirmation = (renderContent n2 b2 f2).confirmation →
      (renderContent n1 b1 f1).barcode = (renderContent n2 b2 f2).barcode) ∧
    (∀ (cn : String) (co : Bool) (st : Store),
      (generate_boarding_pass_image cn co
          ((generate_boarding_pass_image cn co st).2)).1
        = (generate_boarding_pass_image cn co st).1) := by
  refine ⟨fun s => lcg_bits_length _ _, fun s i h => lcg_bits_getD _ _ i h, ?_, ?_⟩
  · intro n1 n2 b1 b2 f1 f2 hconf
    show draw_barcode (renderContent n1 b1 f1).confirmation
      = draw_barcode (renderContent n2 b2 f2).confirmation
    rw [hconf]
  · intro cn co st
    rcases hb : Bookings.get_by_confirmation cn st with _ | b
    · have h1 : generate_boarding_pass_image cn co st = (.error .bookingNotFound, st) := by
        unfold generate_boarding_pass_image; rw [hb]
      rw [h1]
      dsimp only
      rw [h1]
    · rcases hf : Flights.get_by_id b.flightId st with _ | f
      · have h1 : generate_boarding_pass_image cn co st = (.error .flightNotFound, st) := by
          unfold generate_boarding_pass_image; rw [hb]; dsimp only; rw [hf]
        rw [h1]
        dsimp only
        rw [h1]
      · rcases hc : cacheGet (f.id, cn) st.cache with _ | data
        · have h1 : generate_boarding_pass_image cn co st
              = (.ok (some (renderContent cn b f)),
                 { st with cache := st.cache ++ [((f.id, cn), renderContent cn b f)] }) := by
            unfold generate_boarding_pass_image
            rw [hb]; dsimp only; rw [hf]; dsimp only; rw [hc]
          have h2 : generate_boarding_pass_image cn co
              { st with cache := st.cache ++ [((f.id, cn), renderContent cn b f)] }
              = (.ok (some (renderContent cn b f)),
                 { st with cache := st.cache ++ [((f.id, cn), renderContent cn b f)] }) := by
            unfold generate_boarding_pass_image
            rw [show Bookings.get_by_confirmation cn
                { st with cache := st.cache ++ [((f.id, cn), renderContent cn b f)] }
                = some b from hb]
            dsimp only
            rw [show Flights.get_by_id b.flightId
                { st with cache := st.cache ++ [((f.id, cn), renderContent cn b f)] }
                = some f from hf]
            dsimp only
            rw [cacheGet_append_self _ _ _ hc]
            exact ite_self _
          rw [h1]
          dsimp only
          rw [h2]
        · have h1 : generate_boarding_pass_image cn co st = (.ok (some data), st) := by
            unfold generate_boarding_pass_image
            rw [hb]; dsimp only; rw [hf]; dsimp only; rw [hc]
            exact ite_self _
          rw [h1]
          dsimp only
          rw [h1]

/-- Witness for C8 at a concrete code: the first barcode slice of "ABC123"
is the parity of the first advanced LCG state of its hash. -/
theorem C8_render_witness :
    (draw_barcode "ABC123").getD 0 false
      = (lcg_next^[0 + 1] (hash_code "ABC123") % 2 == 1) :=
  C8_render_deterministic.2.1 "ABC123" 0 (by decide)

/-- A store whose booking "CONF66" is checked in but has no cached
artifact. -/
def stC6 : Store :=
  ⟨[Flight.mk "FL6" "KMCI" "KDAL" (some "B738") 7200 5 1 (some "4")],
   [Booking.mk "u1" "al" "FL6" "CONF66" 0 (some "A") (some "A1") (some 10)],
   [UserRow.mk "u1" (some 0)], []⟩

/-- C6: with `cacheOnly` set and no cached artifact at the key, the renderer
does not return a "not found" result — it falls through to full generation,
returns the freshly drawn bytes and persists them into the cache.  Only the
cache-hit half of the claim holds: a cached artifact is returned verbatim,
even one whose content disagrees with what regeneration would produce. -/
theorem C6_cache_only_still_generates :
    ((generate_boarding_pass_image "CONF66" true stC6).1
        = .ok (some (renderContent "CONF66"
            (Booking.mk "u1" "al" "FL6" "CONF66" 0 (some "A") (some "A1") (some 10))
            (Flight.mk "FL6" "KMCI" "KDAL" (some "B738") 7200 5 1 (some "4"))))) ∧
    ((generate_boarding_pass_image "CONF66" true stC6).2.cache
        = [(("FL6", "CONF66"), renderContent "CONF66"
            (Booking.mk "u1" "al" "FL6" "CONF66" 0 (some "A") (some "A1") (some 10))
            (Flight.mk "FL6" "KMCI" "KDAL" (some "B738") 7200 5 1 (some "4")))]) ∧
    stC6.cache = [] ∧
    (∀ art : PassContent,
      (generate_boarding_pass_image "CONF66" true
        { stC6 with cache := [(("FL6", "CONF66"), art)] }).1 = .ok (some art)) := by
  refine ⟨rfl, rfl, rfl, fun art => rfl⟩

/-- A store with a cancellable booking "CONF77" on flight "FL7" departing
one hour after time 0, owned by the non-Early-Bird user "u1". -/
def stC7 : Store :=
  ⟨[Flight.mk "FL7" "KMCI" "KDAL" (some "B737") 3600 3 1 (some "5")],
   [Booking.mk "u1" "al" "FL7" "CONF77" 0 (some "A") (some "A1") none],
   [UserRow.mk "u1" (some 0)], []⟩

/-- C7: a Notification Relay failure during cancellation is *not* swallowed —
the route answers 500 "Database error" although the booking deletion and the
seat release have already committed (and with the relay up the same request
succeeds); during check-in the relay failure is swallowed as the claim says:
the result is identical with the relay failing or succeeding, and is the
rendered pass. -/
theorem C7_cancel_relay_failure_surfaces :
    ((cancel_booking 0 "u1" (some "CONF77") false stC7).1
        = .error .databaseError) ∧
    (Bookings.get_by_confirmation "CONF77"
        (cancel_booking 0 "u1" (some "CONF77") false stC7).2 = none) ∧
    ((Flights.get_by_id "FL7"
        (cancel_booking 0 "u1" (some "CONF77") false stC7).2).map Flight.booked
      = some 0) ∧
    ((cancel_booking 0 "u1" (some "CONF77") true stC7).1 = .ok .canceled) ∧
    ((start_checkin false 0 "u1" (some "al") (some "CONF77") false stC7).1
      = (start_checkin false 0 "u1" (some "al") (some "CONF77") true stC7).1) ∧
    ((start_checkin false 0 "u1" (some "al") (some "CONF77") false stC7).1
      = .ok (renderContent "CONF77"
          (Booking.mk "u1" "al" "FL7" "CONF77" 0 (some "A") (some "A1") (some 0))
          (Flight.mk "FL7" "KMCI" "KDAL" (some "B737") 3600 3 1 (some "5")))) :=
  ⟨rfl, rfl, rfl, rfl, rfl, rfl⟩

/-- The booking, flight and cached artifact of the C9 scenario. -/
def bkC9 : Booking :=
  Booking.mk "u1" "al" "FL9" "CONF99" 0 (some "A") (some "A1") (some 5)

/-- The flight deleted in the C9 scenario. -/
def flC9 : Flight :=
  Flight.mk "FL9" "KMCI" "KDAL" (some "B737") 7200 4 1 (some "6")

/-- A store with flight "FL9" (one booking, one cached artifact) and an
unrelated flight "FL8" with two booked seats. -/
def stC9 : Store :=
  ⟨[flC9, Flight.mk "FL8" "KDAL" "KHOU" (some "B737") 9000 5 2 (some "7")],
   [bkC9],
   [UserRow.mk "u1" (some 0)],
   [(("FL9", "CONF99"), renderContent "CONF99" bkC9 flC9)]⟩

/-- C9: deleting flight "FL9" removes its bookings and the flight row and
releases no seats on the remaining flight — but the artifact cache directory
survives: the removal attempt applies `os.remove` to a directory, which
raises and is swallowed, so the cached boarding-pass artifact for the
deleted flight is still present afterwards (and the periodic past-flight
cleanup never touches the cache at all). -/
theorem C9_delete_flight_cache_survives :
    ((delete_flight "FL9" stC9).1 = .ok "canceled") ∧
    ((delete_flight "FL9" stC9).2.bookings.filter
        (fun b => b.flightId = "FL9") = []) ∧
    (Flights.get_by_id "FL9" (delete_flight "FL9" stC9).2 = none) ∧
    ((Flights.get_by_id "FL8" (delete_flight "FL9" stC9).2).map Flight.booked
      = some 2) ∧
    (cacheGet ("FL9", "CONF99") (delete_flight "FL9" stC9).2.cache
      = some (renderContent "CONF99" bkC9 flC9)) ∧
    (cacheDirExists "FL9" (delete_flight "FL9" stC9).2.cache = true) ∧
    (∀ (now : Int) (st : Store), (cleanup_past_flights now st).cache = st.cache) := by
  refine ⟨rfl, rfl, rfl, rfl, rfl, rfl, ?_⟩
  intro now st
  unfold cleanup_past_flights
  dsimp only
  split <;> rfl
